import Mathlib

/-!
Shallow embedding of `cmd/boulder-publisher/main.go` (boulder publisher
bootstrap): chain bundle resolution and service lifecycle coordination,
together with theorems checking the specification's claims against it.

Collaborator packages (`issuance.LoadChain`, `core.LoadCertBundle`, the gRPC
server, `cmd.*` helpers) are not part of the translated source; they are
modelled as oracle parameters, or — where the specification constrains their
behaviour — as definitions marked `Modelled from the spec`.
-/

set_option autoImplicit false

/-- Raw DER bytes of a certificate, kept abstract. -/
abbrev RawBytes := Nat

/-- `ct.ASN1Cert`: a raw certificate blob as submitted to CT logs. -/
structure ASN1Cert where
  data : RawBytes
deriving DecidableEq, Repr

/-- An `x509.Certificate` as returned by `core.LoadCertBundle`; only its raw
bytes (`cert.Raw`) are consumed by `main.go` line 107. -/
structure X509Certificate where
  raw : RawBytes
deriving DecidableEq, Repr

/-- `issuance.IssuerNameID`: the stable identity derived from an issuing
certificate; opaque here. -/
abbrev IssuerNameID := Nat

/-- An `issuance.Certificate` (the issuing intermediate); the only observation
`main.go` makes of it is `issuer.NameID()` (line 98), so it is modelled by that
identity alone. -/
structure IssuerCertificate where
  NameID : IssuerNameID
deriving DecidableEq, Repr

/-- The successful result of the collaborator `issuance.LoadChain(files)`
(main.go line 95): the issuing certificate, a second component that `main`
discards (bound to `_`), and the bundle of certificates to attach to
submissions. -/
structure LoadedChain where
  issuer : IssuerCertificate
  chain : List X509Certificate
  bundle : List ASN1Cert
deriving DecidableEq, Repr

/-- The Go map `bundles` of `main.go` line 92, represented as an insertion-order
association list with at most one entry per key. -/
abbrev BundleMap := List (IssuerNameID × List ASN1Cert)

/-- Go map assignment `bundles[id] = bundle` (main.go line 99): if the key is
already present its value is replaced in place, otherwise the pair is appended. -/
def mapStore (m : BundleMap) (k : IssuerNameID) (v : List ASN1Cert) : BundleMap :=
  if k ∈ m.map Prod.fst then
    m.map (fun p => if p.1 = k then (p.1, v) else p)
  else
    m ++ [(k, v)]

/-- Go map lookup `bundles[id]`. -/
def mapFind (m : BundleMap) (k : IssuerNameID) : Option (List ASN1Cert) :=
  (m.find? (fun p => p.1 == k)).map Prod.snd

/-- The loop of `main.go` lines 94-100: for each chain definition in order, call
`issuance.LoadChain`, abort on the first failure (`cmd.FailOnError`), otherwise
store the loaded bundle under the issuer's name ID. `lc` is the
`issuance.LoadChain` collaborator. -/
def loadChains (lc : List String → Except String LoadedChain) :
    List (List String) → BundleMap → Except String BundleMap
  | [], acc => .ok acc
  | files :: rest, acc =>
    match lc files with
    | .error e => .error e
    | .ok loaded => loadChains lc rest (mapStore acc loaded.issuer.NameID loaded.bundle)

/-- An error returned by `grpcSrv.Serve`: either the benign
`grpc.ErrServerStopped` produced by a graceful stop already in progress, or a
genuine serving failure. -/
inductive ServeError where
  | serverStopped
  | other (msg : String)
deriving DecidableEq, Repr

/-- Render a serve error as the message `cmd.FailOnError` would log. -/
def ServeError.message : ServeError → String
  | .serverStopped => "grpc: the server has been stopped"
  | .other msg => msg

/-- Modelled from the spec: `cmd.FilterShutdownErrors` (called at main.go line
131) is not under `src/`; the spec requires that errors occurring purely as a
consequence of a requested shutdown (listener-closed style errors from a
graceful stop already in progress) be classified as benign and suppressed,
while genuine failures pass through. -/
def FilterShutdownErrors : Option ServeError → Option ServeError
  | some .serverStopped => none
  | e => e

/-- The configuration block `config.Publisher` of `main.go` lines 22-41.
`Chains [][]string` is a Go slice whose `nil` value is distinguishable from an
empty slice, hence the `Option`. -/
structure PublisherConfig where
  blockProfileRate : Int
  userAgent : String
  chains : Option (List (List String))
  grpcAddr : String
  debugAddr : String
deriving DecidableEq, Repr

/-- The configuration of `main.go` lines 21-51, restricted to the fields `main`
reads: the publisher block and the legacy
`Common.CT.IntermediateBundleFilename`. -/
structure Config where
  publisher : PublisherConfig
  intermediateBundleFilename : String
deriving DecidableEq, Repr

/-- The user-agent defaulting of `main.go` lines 77-79: an empty configured
user agent is replaced by `"certificate-transparency-go/1.0"`. -/
def defaultedUserAgent (cfg : Config) : String :=
  if cfg.publisher.userAgent = "" then "certificate-transparency-go/1.0"
  else cfg.publisher.userAgent

/-- Outcomes of the external collaborators consumed by `main`: the certificate
loaders, TLS-config loading, gRPC server construction (listener bind), and the
result of the blocking `grpcSrv.Serve` call (`none` = clean return). -/
structure Collaborators where
  loadChain : List String → Except String LoadedChain
  loadCertBundle : String → Except String (List X509Certificate)
  tlsLoad : Except String Unit
  newServer : Except String Unit
  serveResult : Option ServeError

/-- Observable events of a run of `main`, in program order. -/
inductive Event where
  | setBlockProfileRate (rate : Int)
  | statsAndLogging (debugAddr : String)
  | auditErr (msg : String)
  | fatal (msg : String) (err : String)
  | exit (code : Nat)
  | loadLegacyBundle (filename : String)
  | newPublisher (userAgent : String) (bundle : List ASN1Cert) (bundles : BundleMap)
  | newListener (grpcAddr : String)
  | registerPublisherServer
  | registerHealth
  | serveCall
deriving DecidableEq, Repr

/-- `main.go` lines 111-132, after the bundle source has been resolved: load the
TLS config, construct the publisher from the resolved flat bundle and per-issuer
mapping, build the gRPC server and listener, register the publisher and health
services, serve, and classify the serve result through
`cmd.FilterShutdownErrors` / `cmd.FailOnError`. Returns the event trace and the
process exit code. -/
def runServer (cfg : Config) (w : Collaborators) (ua : String)
    (bundle : List ASN1Cert) (bundles : BundleMap) (pre : List Event) :
    List Event × Nat :=
  match w.tlsLoad with
  | .error e => (pre ++ [.fatal "TLS config" e, .exit 1], 1)
  | .ok _ =>
    let pre2 := pre ++ [Event.newPublisher ua bundle bundles]
    match w.newServer with
    | .error e => (pre2 ++ [.fatal "Unable to setup Publisher gRPC server" e, .exit 1], 1)
    | .ok _ =>
      let pre3 := pre2 ++ [Event.newListener cfg.publisher.grpcAddr,
        Event.registerPublisherServer, Event.registerHealth, Event.serveCall]
      match FilterShutdownErrors w.serveResult with
      | none => (pre3 ++ [.exit 0], 0)
      | some e => (pre3 ++ [.fatal "Publisher gRPC service failed" e.message, .exit 1], 1)

/-- `main.go` lines 69-132 (the flag/config-file reading of lines 54-68 is
summarised by `cfg` being given): block-profile setup, stats/logging setup,
user-agent defaulting, the configuration-validity check of lines 86-89, bundle
resolution (chains branch lines 93-100, legacy branch lines 102-109), then the
server lifecycle via `runServer`. -/
def runMain (cfg : Config) (w : Collaborators) : List Event × Nat :=
  let ua := defaultedUserAgent cfg
  let e0 : List Event := [.setBlockProfileRate cfg.publisher.blockProfileRate,
    .statsAndLogging cfg.publisher.debugAddr]
  if cfg.intermediateBundleFilename = "" ∧ cfg.publisher.chains = none then
    (e0 ++ [.auditErr "No CT submission bundle or chains provided", .exit 1], 1)
  else
    match cfg.publisher.chains with
    | some chainList =>
      match loadChains w.loadChain chainList [] with
      | .error e => (e0 ++ [.fatal "Failed to load chain" e, .exit 1], 1)
      | .ok bundles => runServer cfg w ua [] bundles e0
    | none =>
      let e1 := e0 ++ [Event.loadLegacyBundle cfg.intermediateBundleFilename]
      match w.loadCertBundle cfg.intermediateBundleFilename with
      | .error e => (e1 ++ [.fatal "Failed to load CT submission bundle" e, .exit 1], 1)
      | .ok pemBundle =>
        runServer cfg w ua (pemBundle.map (fun cert => ASN1Cert.mk cert.raw)) [] e1

/-- A request handled by the gRPC server, identified abstractly. -/
structure GrpcRequest where
  id : Nat
deriving DecidableEq, Repr

/-- Observable state of the gRPC server and its health service. -/
structure ServerState where
  healthServing : Bool
  accepting : Bool
  inFlight : List GrpcRequest
  completed : List GrpcRequest
deriving DecidableEq, Repr

/-- `hs.Shutdown()` (main.go line 127): the health service transitions to
NOT_SERVING; nothing else changes. -/
def hsShutdown (s : ServerState) : ServerState :=
  { s with healthServing := false }

/-- Modelled from the spec: `grpcSrv.GracefulStop()` (main.go line 128) is
library code outside `src/`; per the spec's collaborator contract it stops
accepting new requests and waits for every in-flight request to complete. -/
def gracefulStop (s : ServerState) : ServerState :=
  { s with accepting := false, inFlight := [], completed := s.completed ++ s.inFlight }

/-- Modelled from the spec: the listener admits a new request only while it is
accepting; after a graceful stop has begun, new requests are refused. -/
def acceptRequest (s : ServerState) (r : GrpcRequest) : ServerState :=
  if s.accepting then { s with inFlight := r :: s.inFlight } else s

/-- The shutdown callback registered with `cmd.CatchSignals` (main.go lines
126-129): on the termination signal, first `hs.Shutdown()`, then
`grpcSrv.GracefulStop()`. -/
def shutdownCallback (s : ServerState) : ServerState :=
  gracefulStop (hsShutdown s)

/-- The events emitted by the shutdown callback, in the order the two calls
appear on main.go lines 127-128. -/
inductive ShutdownEvent where
  | healthNotServing
  | gracefulStopBegin
deriving DecidableEq, Repr

/-- Trace of the shutdown callback: health transition first, then graceful
stop. -/
def shutdownCallbackEvents : List ShutdownEvent :=
  [.healthNotServing, .gracefulStopBegin]

/-! ### Lemmas about Go-map insertion and the chain-loading loop -/

theorem mapStore_map_fst (m : BundleMap) (k : IssuerNameID) (v : List ASN1Cert) :
    (mapStore m k v).map Prod.fst =
      if k ∈ m.map Prod.fst then m.map Prod.fst else m.map Prod.fst ++ [k] := by
  by_cases h : k ∈ m.map Prod.fst
  · rw [if_pos h]
    simp only [mapStore, if_pos h, List.map_map]
    congr 1
    funext p
    by_cases hpk : p.1 = k <;> simp [hpk]
  · rw [if_neg h]
    simp only [mapStore, if_neg h]
    simp

theorem mem_mapStore_map_fst (m : BundleMap) (k : IssuerNameID) (v : List ASN1Cert)
    (id : IssuerNameID) :
    id ∈ (mapStore m k v).map Prod.fst ↔ id ∈ m.map Prod.fst ∨ id = k := by
  rw [mapStore_map_fst]
  by_cases h : k ∈ m.map Prod.fst
  · rw [if_pos h]
    constructor
    · exact Or.inl
    · rintro (hm | rfl)
      · exact hm
      · exact h
  · rw [if_neg h]
    simp

theorem mapStore_nodup_fst (m : BundleMap) (k : IssuerNameID) (v : List ASN1Cert)
    (h : (m.map Prod.fst).Nodup) : ((mapStore m k v).map Prod.fst).Nodup := by
  rw [mapStore_map_fst]
  by_cases hk : k ∈ m.map Prod.fst
  · rw [if_pos hk]; exact h
  · rw [if_neg hk]
    refine List.Nodup.append h (List.nodup_singleton k) ?_
    intro a ha hb
    rw [List.mem_singleton] at hb
    subst hb
    exact hk ha

theorem loadChains_ok_mem_fst (lc : List String → Except String LoadedChain)
    (chains : List (List String)) :
    ∀ acc m : BundleMap, loadChains lc chains acc = .ok m →
      ∀ id, id ∈ m.map Prod.fst ↔ id ∈ acc.map Prod.fst ∨
        ∃ files, files ∈ chains ∧ ∃ r, lc files = .ok r ∧ r.issuer.NameID = id := by
  induction chains with
  | nil =>
    intro acc m h id
    simp only [loadChains, Except.ok.injEq] at h
    subst h
    simp
  | cons files rest ih =>
    intro acc m h id
    simp only [loadChains] at h
    cases hlc : lc files with
    | error e => rw [hlc] at h; exact absurd h (by simp)
    | ok r =>
      rw [hlc] at h
      rw [ih _ _ h id, mem_mapStore_map_fst]
      constructor
      · rintro ((hm | rfl) | ⟨f, hf, r2, hr2, hid⟩)
        · exact Or.inl hm
        · exact Or.inr ⟨files, by simp, r, hlc, rfl⟩
        · exact Or.inr ⟨f, by simp [hf], r2, hr2, hid⟩
      · rintro (hm | ⟨f, hf, r2, hr2, hid⟩)
        · exact Or.inl (Or.inl hm)
        · rcases List.mem_cons.mp hf with rfl | hf2
          · rw [hlc] at hr2
            cases hr2
            exact Or.inl (Or.inr hid.symm)
          · exact Or.inr ⟨f, hf2, r2, hr2, hid⟩

theorem loadChains_ok_nodup_fst (lc : List String → Except String LoadedChain)
    (chains : List (List String)) :
    ∀ acc m : BundleMap, loadChains lc chains acc = .ok m →
      (acc.map Prod.fst).Nodup → (m.map Prod.fst).Nodup := by
  induction chains with
  | nil =>
    intro acc m h hacc
    simp only [loadChains, Except.ok.injEq] at h
    subst h
    exact hacc
  | cons files rest ih =>
    intro acc m h hacc
    simp only [loadChains] at h
    cases hlc : lc files with
    | error e => rw [hlc] at h; exact absurd h (by simp)
    | ok r =>
      rw [hlc] at h
      exact ih _ _ h (mapStore_nodup_fst _ _ _ hacc)

/-- `main.go` lines 91-109 as a value-level function: the chains branch builds
the per-issuer mapping with an empty flat bundle (the loop-local `bundle` on
line 95 shadows the outer one), and the legacy branch wraps each parsed
certificate's raw bytes into an `ASN1Cert`, with an empty mapping. -/
def resolveBundleSource (cfg : Config) (lc : List String → Except String LoadedChain)
    (lb : String → Except String (List X509Certificate)) :
    Except String (List ASN1Cert × BundleMap) :=
  match cfg.publisher.chains with
  | some chainList =>
    match loadChains lc chainList [] with
    | .error e => .error e
    | .ok bundles => .ok ([], bundles)
  | none =>
    match lb cfg.intermediateBundleFilename with
    | .error e => .error e
    | .ok pemBundle => .ok (pemBundle.map (fun cert => ASN1Cert.mk cert.raw), [])

/-- Two chain definitions whose first certificates resolve to the same issuer
NameID 7 but carry different bundles (`[1]` for the first, `[2]` for the
second). -/
def lcDupIssuer : List String → Except String LoadedChain
  | ["inta.pem", "roota.pem"] => .ok ⟨⟨7⟩, [], [ASN1Cert.mk 1]⟩
  | ["inta2.pem", "roota2.pem"] => .ok ⟨⟨7⟩, [], [ASN1Cert.mk 2]⟩
  | _ => .error "unexpected chain"

/-- The duplicate-issuer chain-definition list, in configuration order. -/
def chainsDup : List (List String) :=
  [["inta.pem", "roota.pem"], ["inta2.pem", "roota2.pem"]]

/-- C1: FAILS on the code. With two chain definitions resolving to issuer
NameID 7 — the first with bundle `[1]`, the second with bundle `[2]` — the loop
of main.go lines 94-100 executes `bundles[id] = bundle` unconditionally, so the
resulting mapping associates issuer 7 with the SECOND chain's bundle `[2]`:
last-wins, contradicting the claimed (and code-comment-documented) first-wins
rule, under which the entry would be `[1]`. -/
theorem duplicate_issuer_last_wins :
    loadChains lcDupIssuer chainsDup [] = Except.ok [(7, [ASN1Cert.mk 2])] ∧
    mapFind [(7, [ASN1Cert.mk 2])] 7 = some [ASN1Cert.mk 2] ∧
    ASN1Cert.mk 2 ≠ ASN1Cert.mk 1 := by
  refine ⟨rfl, rfl, ?_⟩
  intro h
  cases h

theorem loadChains_congr (lc1 lc2 : List String → Except String LoadedChain)
    (chains : List (List String)) :
    ∀ acc : BundleMap, (∀ files ∈ chains, lc1 files = lc2 files) →
      loadChains lc1 chains acc = loadChains lc2 chains acc := by
  induction chains with
  | nil => intro acc _; rfl
  | cons files rest ih =>
    intro acc h
    simp only [loadChains]
    rw [h files (by simp)]
    cases lc2 files with
    | error e => rfl
    | ok r => exact ih _ (fun f hf => h f (by simp [hf]))

/-- C9: resolution is deterministic — two invocations of the bundle-source
resolution of main.go lines 91-109 on the same configuration, with collaborators
that return identical results for every file consulted, produce element-wise
equal flat bundles and bundle mappings. -/
theorem resolution_deterministic (cfg : Config)
    (lc1 lc2 : List String → Except String LoadedChain)
    (lb1 lb2 : String → Except String (List X509Certificate))
    (hlc : ∀ l, cfg.publisher.chains = some l → ∀ files ∈ l, lc1 files = lc2 files)
    (hlb : lb1 cfg.intermediateBundleFilename = lb2 cfg.intermediateBundleFilename) :
    resolveBundleSource cfg lc1 lb1 = resolveBundleSource cfg lc2 lb2 := by
  cases hc : cfg.publisher.chains with
  | some chainList =>
    simp only [resolveBundleSource, hc]
    rw [loadChains_congr lc1 lc2 chainList [] (hlc chainList hc)]
  | none =>
    simp only [resolveBundleSource, hc]
    rw [hlb]

/-- A second `issuance.LoadChain` oracle agreeing with `lcDupIssuer` on both
configured chains but differing elsewhere. -/
def lcDupIssuerAlt : List String → Except String LoadedChain
  | ["inta.pem", "roota.pem"] => .ok ⟨⟨7⟩, [], [ASN1Cert.mk 1]⟩
  | ["inta2.pem", "roota2.pem"] => .ok ⟨⟨7⟩, [], [ASN1Cert.mk 2]⟩
  | _ => .error "elsewhere different"

/-- Witness for C9: the duplicate-issuer configuration resolved against two
oracles that agree on both configured chains. -/
theorem resolution_deterministic_witness :
    resolveBundleSource
        ⟨⟨0, "", some chainsDup, "addr", "debug"⟩, ""⟩ lcDupIssuer
        (fun _ => Except.error "no legacy") =
      resolveBundleSource
        ⟨⟨0, "", some chainsDup, "addr", "debug"⟩, ""⟩ lcDupIssuerAlt
        (fun _ => Except.error "no legacy") :=
  resolution_deterministic ⟨⟨0, "", some chainsDup, "addr", "debug"⟩, ""⟩
    lcDupIssuer lcDupIssuerAlt (fun _ => Except.error "no legacy")
    (fun _ => Except.error "no legacy")
    (by
      intro l hl files hf
      injection hl with hl
      subst hl
      simp only [chainsDup, List.mem_cons, List.not_mem_nil, or_false] at hf
      rcases hf with rfl | rfl <;> rfl)
    rfl

/-- C5: when every configured chain loads successfully (so the loop of main.go
lines 94-100 returns a mapping `m`), `m` has no duplicate issuer keys, its size
equals the number of distinct issuer NameIDs among the loaded chains, and its
keys are exactly the issuer NameIDs seen. -/
theorem resolution_entry_count (lc : List String → Except String LoadedChain)
    (chains : List (List String)) (m : BundleMap)
    (h : loadChains lc chains [] = Except.ok m) :
    (m.map Prod.fst).Nodup ∧
    m.length = ((chains.filterMap (fun files => (lc files).toOption)).map
      (fun r => r.issuer.NameID)).dedup.length ∧
    (∀ id, id ∈ m.map Prod.fst ↔
      ∃ files, files ∈ chains ∧ ∃ r, lc files = Except.ok r ∧ r.issuer.NameID = id) := by
  have hnd : (m.map Prod.fst).Nodup :=
    loadChains_ok_nodup_fst lc chains [] m h (by simp)
  have hmem : ∀ id, id ∈ m.map Prod.fst ↔
      ∃ files, files ∈ chains ∧ ∃ r, lc files = Except.ok r ∧ r.issuer.NameID = id := by
    intro id
    rw [loadChains_ok_mem_fst lc chains [] m h id]
    simp
  refine ⟨hnd, ?_, hmem⟩
  have hperm : (m.map Prod.fst).Perm
      ((chains.filterMap (fun files => (lc files).toOption)).map
        (fun r => r.issuer.NameID)).dedup := by
    rw [List.perm_ext_iff_of_nodup hnd (List.nodup_dedup _)]
    intro id
    rw [hmem id, List.mem_dedup, List.mem_map]
    constructor
    · rintro ⟨files, hf, r, hr, hid⟩
      refine ⟨r, ?_, hid⟩
      rw [List.mem_filterMap]
      exact ⟨files, hf, by rw [hr]; rfl⟩
    · rintro ⟨r, hr, hid⟩
      rw [List.mem_filterMap] at hr
      obtain ⟨files, hf, hopt⟩ := hr
      refine ⟨files, hf, r, ?_, hid⟩
      cases hlc : lc files <;> rw [hlc] at hopt
      · exact absurd hopt (by simp [Except.toOption])
      · simp [Except.toOption] at hopt
        rw [hopt]
  calc m.length = (m.map Prod.fst).length := (List.length_map _ _).symm
    _ = _ := hperm.length_eq

/-- Witness for C5: the duplicate-issuer configuration yields a one-entry
mapping for its single distinct issuer. -/
theorem resolution_entry_count_witness :
    (([(7, [ASN1Cert.mk 2])] : BundleMap).map Prod.fst).Nodup ∧
    ([(7, [ASN1Cert.mk 2])] : BundleMap).length =
      ((chainsDup.filterMap (fun files => (lcDupIssuer files).toOption)).map
        (fun r => r.issuer.NameID)).dedup.length :=
  ⟨(resolution_entry_count lcDupIssuer chainsDup [(7, [ASN1Cert.mk 2])] rfl).1,
   (resolution_entry_count lcDupIssuer chainsDup [(7, [ASN1Cert.mk 2])] rfl).2.1⟩

/-! ### Trace lemmas for the server lifecycle -/

theorem runServer_pre_subset (cfg : Config) (w : Collaborators) (ua : String)
    (bundle : List ASN1Cert) (bundles : BundleMap) (pre : List Event) (e : Event)
    (h : e ∈ pre) : e ∈ (runServer cfg w ua bundle bundles pre).1 := by
  rcases htls : w.tlsLoad with e1 | u <;>
    rcases hns : w.newServer with e2 | u2 <;>
      rcases hf : FilterShutdownErrors w.serveResult with _ | e3 <;>
        simp [runServer, htls, hns, hf, h]

theorem runServer_mem_inv (cfg : Config) (w : Collaborators) (ua : String)
    (bundle : List ASN1Cert) (bundles : BundleMap) (pre : List Event) (e : Event)
    (h : e ∈ (runServer cfg w ua bundle bundles pre).1) :
    e ∈ pre ∨ e = Event.newPublisher ua bundle bundles ∨
      e = Event.newListener cfg.publisher.grpcAddr ∨
      e = Event.registerPublisherServer ∨ e = Event.registerHealth ∨
      e = Event.serveCall ∨ (∃ msg err, e = Event.fatal msg err) ∨
      ∃ code, e = Event.exit code := by
  rcases htls : w.tlsLoad with e1 | u <;>
    rcases hns : w.newServer with e2 | u2 <;>
      rcases hf : FilterShutdownErrors w.serveResult with _ | e3 <;>
        simp only [runServer, htls, hns, hf, List.mem_append, List.mem_cons,
          List.not_mem_nil, or_false] at h <;>
        aesop

theorem runServer_newPublisher_inv (cfg : Config) (w : Collaborators) (ua : String)
    (bundle : List ASN1Cert) (bundles : BundleMap) (pre : List Event)
    (ua2 : String) (b : List ASN1Cert) (bs : BundleMap)
    (h : Event.newPublisher ua2 b bs ∈ (runServer cfg w ua bundle bundles pre).1) :
    Event.newPublisher ua2 b bs ∈ pre ∨ (ua2 = ua ∧ b = bundle ∧ bs = bundles) := by
  rcases runServer_mem_inv cfg w ua bundle bundles pre _ h with
    hp | he | he | he | he | he | ⟨m2, e2, he⟩ | ⟨c2, he⟩
  · exact Or.inl hp
  · injection he with h1 h2 h3
    exact Or.inr ⟨h1, h2, h3⟩
  all_goals cases he

theorem runServer_newPublisher_mem (cfg : Config) (w : Collaborators) (ua : String)
    (bundle : List ASN1Cert) (bundles : BundleMap) (pre : List Event)
    (htls : w.tlsLoad = Except.ok ()) :
    Event.newPublisher ua bundle bundles ∈ (runServer cfg w ua bundle bundles pre).1 := by
  rcases hns : w.newServer with e2 | u2 <;>
    rcases hf : FilterShutdownErrors w.serveResult with _ | e3 <;>
      simp [runServer, htls, hns, hf]

theorem runServer_legacyEvent_inv (cfg : Config) (w : Collaborators) (ua : String)
    (bundle : List ASN1Cert) (bundles : BundleMap) (pre : List Event) (f : String)
    (h : Event.loadLegacyBundle f ∈ (runServer cfg w ua bundle bundles pre).1) :
    Event.loadLegacyBundle f ∈ pre := by
  rcases runServer_mem_inv cfg w ua bundle bundles pre _ h with
    hp | he | he | he | he | he | ⟨m2, e2, he⟩ | ⟨c2, he⟩
  · exact hp
  all_goals cases he

theorem runServer_exit_code (cfg : Config) (w : Collaborators) (ua : String)
    (bundle : List ASN1Cert) (bundles : BundleMap) (pre : List Event)
    (htls : w.tlsLoad = Except.ok ()) (hns : w.newServer = Except.ok ()) :
    (runServer cfg w ua bundle bundles pre).2 =
      match FilterShutdownErrors w.serveResult with
      | none => 0
      | some _ => 1 := by
  rcases hf : FilterShutdownErrors w.serveResult with _ | e3 <;>
    simp [runServer, htls, hns, hf]

/-- C3 (amended): when the chain-definition list is ABSENT (Go `nil`) and the
legacy bundle filename is empty, `main` audit-logs a configuration error and
exits with status 1; the gRPC listener is never created, no health or publisher
service is registered, and serving never starts. (The original claim's
"absent/empty" also covered a present-but-empty list; that case is refuted by
`present_empty_chains_no_config_error` below.) -/
theorem missing_bundle_source_fails_fast (cfg : Config) (w : Collaborators)
    (hchains : cfg.publisher.chains = none)
    (hlegacy : cfg.intermediateBundleFilename = "") :
    (runMain cfg w).2 = 1 ∧
    Event.auditErr "No CT submission bundle or chains provided" ∈ (runMain cfg w).1 ∧
    (∀ a, Event.newListener a ∉ (runMain cfg w).1) ∧
    Event.registerHealth ∉ (runMain cfg w).1 ∧
    Event.serveCall ∉ (runMain cfg w).1 ∧
    (∀ ua b bs, Event.newPublisher ua b bs ∉ (runMain cfg w).1) := by
  simp [runMain, hchains, hlegacy]

/-- Configuration with neither chains nor a legacy bundle filename. -/
def cfgNoSource : Config := ⟨⟨0, "", none, "addr", "debug"⟩, ""⟩

/-- Collaborators that would succeed at every step, showing the failure is due
to the configuration alone. -/
def wNoSource : Collaborators :=
  ⟨fun _ => .error "no chain", fun _ => .error "no bundle", .ok (), .ok (), none⟩

/-- Witness for C3 at a concrete configuration. -/
theorem missing_bundle_source_fails_fast_witness :
    (runMain cfgNoSource wNoSource).2 = 1 ∧
    Event.auditErr "No CT submission bundle or chains provided" ∈
      (runMain cfgNoSource wNoSource).1 ∧
    Event.registerHealth ∉ (runMain cfgNoSource wNoSource).1 :=
  ⟨(missing_bundle_source_fails_fast cfgNoSource wNoSource rfl rfl).1,
   (missing_bundle_source_fails_fast cfgNoSource wNoSource rfl rfl).2.1,
   (missing_bundle_source_fails_fast cfgNoSource wNoSource rfl rfl).2.2.2.1⟩

/-- Configuration with a PRESENT but EMPTY chains list (a Go non-nil empty
slice) and an empty legacy bundle filename. -/
def cfgEmptyChainsNoLegacy : Config := ⟨⟨0, "", some [], "addr", "debug"⟩, ""⟩

/-- C3 counterexample: with a present-but-empty chains list and an empty legacy
filename — a configuration the original claim's "absent/empty" wording covers —
the check `Chains == nil` on main.go line 86 is false, so NO configuration
error is raised: the run creates the listener, registers the health service,
starts serving, and exits with status 0. -/
theorem present_empty_chains_no_config_error :
    (runMain cfgEmptyChainsNoLegacy wNoSource).2 = 0 ∧
    Event.auditErr "No CT submission bundle or chains provided" ∉
      (runMain cfgEmptyChainsNoLegacy wNoSource).1 ∧
    Event.newListener "addr" ∈ (runMain cfgEmptyChainsNoLegacy wNoSource).1 ∧
    Event.registerHealth ∈ (runMain cfgEmptyChainsNoLegacy wNoSource).1 ∧
    Event.serveCall ∈ (runMain cfgEmptyChainsNoLegacy wNoSource).1 := by
  refine ⟨by decide, by decide, by decide, by decide, by decide⟩

theorem runMain_newPublisher_inv (cfg : Config) (w : Collaborators)
    (ua : String) (b : List ASN1Cert) (bs : BundleMap)
    (h : Event.newPublisher ua b bs ∈ (runMain cfg w).1) :
    ua = defaultedUserAgent cfg ∧
    ((∃ chainList, cfg.publisher.chains = some chainList ∧
        loadChains w.loadChain chainList [] = Except.ok bs ∧ b = []) ∨
     (cfg.publisher.chains = none ∧ ∃ pem,
        w.loadCertBundle cfg.intermediateBundleFilename = Except.ok pem ∧
        b = List.map (fun cert => ASN1Cert.mk cert.raw) pem ∧ bs = [])) := by
  rcases hc : cfg.publisher.chains with _ | chainList
  · by_cases hfile : cfg.intermediateBundleFilename = ""
    · exfalso
      simp [runMain, hc, hfile] at h
    · rcases hlb : w.loadCertBundle cfg.intermediateBundleFilename with e | pem
      · exfalso
        simp [runMain, hc, hfile, hlb] at h
      · have h2 := h
        simp only [runMain] at h2
        rw [hc] at h2
        simp [hfile, hlb] at h2
        rcases runServer_newPublisher_inv _ _ _ _ _ _ _ _ _ h2 with hp | ⟨h1, hb, hbs⟩
        · exfalso; simp at hp
        · exact ⟨h1, Or.inr ⟨rfl, pem, rfl, hb, hbs⟩⟩
  · rcases hl : loadChains w.loadChain chainList [] with e | m
    · exfalso
      simp [runMain, hc, hl] at h
    · have h2 := h
      simp only [runMain] at h2
      rw [hc] at h2
      simp [hl] at h2
      rcases runServer_newPublisher_inv _ _ _ _ _ _ _ _ _ h2 with hp | ⟨h1, hb, hbs⟩
      · exfalso; simp at hp
      · refine ⟨h1, Or.inl ⟨chainList, rfl, ?_, hb⟩⟩
        rw [hbs]
        exact hl

/-- C10: any publisher constructed during a run receives the configured user
agent, with an empty configured value replaced by
`"certificate-transparency-go/1.0"` (main.go lines 77-79 and 116). -/
theorem user_agent_defaulting (cfg : Config) (w : Collaborators)
    (ua : String) (b : List ASN1Cert) (bs : BundleMap)
    (h : Event.newPublisher ua b bs ∈ (runMain cfg w).1) :
    (cfg.publisher.userAgent = "" → ua = "certificate-transparency-go/1.0") ∧
    (cfg.publisher.userAgent ≠ "" → ua = cfg.publisher.userAgent) := by
  have hua := (runMain_newPublisher_inv cfg w ua b bs h).1
  constructor
  · intro he
    rw [hua, defaultedUserAgent, if_pos he]
  · intro he
    rw [hua, defaultedUserAgent, if_neg he]

/-- Configuration whose chains list is present (the duplicate-issuer list) and
whose user agent is empty. -/
def cfgChains : Config := ⟨⟨0, "", some chainsDup, "addr", "debug"⟩, ""⟩

/-- Collaborators for the chains configurations: the duplicate-issuer loader,
an unused legacy loader, and a run that starts and stops cleanly. -/
def wDup : Collaborators :=
  ⟨lcDupIssuer, fun _ => Except.error "unused", Except.ok (), Except.ok (), none⟩

/-- Witness for C10: with an empty configured user agent, the publisher is
constructed with the default user agent. -/
theorem user_agent_defaulting_witness :
    cfgChains.publisher.userAgent = "" ∧
    ("certificate-transparency-go/1.0" : String) = "certificate-transparency-go/1.0" :=
  ⟨rfl, (user_agent_defaulting cfgChains wDup "certificate-transparency-go/1.0" []
    [(7, [ASN1Cert.mk 2])] (by decide)).1 rfl⟩

/-- C4: when the chains list is present, the run is unchanged by the legacy
loader (it is never consulted), no legacy-bundle load ever happens, and every
publisher constructed carries the mapping resolved from the chains together
with an empty flat bundle. -/
theorem chains_take_precedence (cfg : Config)
    (lc : List String → Except String LoadedChain)
    (lb1 lb2 : String → Except String (List X509Certificate))
    (tls ns : Except String Unit) (sr : Option ServeError)
    (chainList : List (List String))
    (hc : cfg.publisher.chains = some chainList) :
    runMain cfg ⟨lc, lb1, tls, ns, sr⟩ = runMain cfg ⟨lc, lb2, tls, ns, sr⟩ ∧
    (∀ f, Event.loadLegacyBundle f ∉ (runMain cfg ⟨lc, lb1, tls, ns, sr⟩).1) ∧
    (∀ ua b bs, Event.newPublisher ua b bs ∈ (runMain cfg ⟨lc, lb1, tls, ns, sr⟩).1 →
      loadChains lc chainList [] = Except.ok bs ∧ b = []) := by
  refine ⟨?_, ?_, ?_⟩
  · simp only [runMain]
    rw [hc]
    rcases hl : loadChains lc chainList [] with e | m <;> simp [hl]
    rfl
  · intro f hf
    revert hf
    simp only [runMain]
    rw [hc]
    rcases hl : loadChains lc chainList [] with e | m <;> simp [hl]
    intro hf
    have := runServer_legacyEvent_inv cfg ⟨lc, lb1, tls, ns, sr⟩ (defaultedUserAgent cfg)
      [] m _ f hf
    simp at this
  · intro ua b bs h
    rcases (runMain_newPublisher_inv cfg ⟨lc, lb1, tls, ns, sr⟩ ua b bs h).2 with
      ⟨cl, hcl, hload, hb⟩ | ⟨hnone, _⟩
    · rw [hc] at hcl
      injection hcl with hcl
      subst hcl
      exact ⟨hload, hb⟩
    · rw [hc] at hnone
      cases hnone

/-- Configuration with the chains list present AND the legacy filename set. -/
def cfgChainsAndLegacy : Config := ⟨⟨0, "", some chainsDup, "addr", "debug"⟩, "legacy.pem"⟩

/-- Witness for C4: with chains present and a legacy filename set, the run does
not depend on the legacy loader, not even on one that would fail. -/
theorem chains_take_precedence_witness :
    runMain cfgChainsAndLegacy
        ⟨lcDupIssuer, fun _ => Except.ok [⟨5⟩], Except.ok (), Except.ok (), none⟩ =
      runMain cfgChainsAndLegacy
        ⟨lcDupIssuer, fun _ => Except.error "would fail", Except.ok (), Except.ok (), none⟩ :=
  (chains_take_precedence cfgChainsAndLegacy lcDupIssuer
    (fun _ => Except.ok [⟨5⟩]) (fun _ => Except.error "would fail")
    (Except.ok ()) (Except.ok ()) none chainsDup rfl).1

theorem loadChains_error_of_mem (lc : List String → Except String LoadedChain)
    (chainList : List (List String)) :
    ∀ (acc : BundleMap) (files : List String) (e : String),
      files ∈ chainList → lc files = .error e →
        ∃ e2, loadChains lc chainList acc = .error e2 := by
  induction chainList with
  | nil =>
    intro acc files e h _
    exact absurd h (List.not_mem_nil _)
  | cons f rest ih =>
    intro acc files e hmem herr
    cases hlc : lc f with
    | error e1 => exact ⟨e1, by simp [loadChains, hlc]⟩
    | ok r =>
      rcases List.mem_cons.mp hmem with rfl | hmem2
      · rw [hlc] at herr
        exact absurd herr (by simp)
      · obtain ⟨e2, h2⟩ := ih (mapStore acc r.issuer.NameID r.bundle) files e hmem2 herr
        exact ⟨e2, by simp [loadChains, hlc, h2]⟩

/-- C8: if any configured chain fails to load, the run logs a fatal
"Failed to load chain" error and exits 1; no publisher is ever constructed
(no partial mapping is exposed), no listener is created, and serving never
starts. -/
theorem chain_load_failure_aborts (cfg : Config) (w : Collaborators)
    (chainList : List (List String)) (files : List String) (e : String)
    (hc : cfg.publisher.chains = some chainList)
    (hmem : files ∈ chainList) (herr : w.loadChain files = Except.error e) :
    (∃ e2, loadChains w.loadChain chainList [] = Except.error e2 ∧
      Event.fatal "Failed to load chain" e2 ∈ (runMain cfg w).1) ∧
    (runMain cfg w).2 = 1 ∧
    (∀ ua b bs, Event.newPublisher ua b bs ∉ (runMain cfg w).1) ∧
    (∀ a, Event.newListener a ∉ (runMain cfg w).1) ∧
    Event.serveCall ∉ (runMain cfg w).1 := by
  obtain ⟨e2, hl⟩ := loadChains_error_of_mem w.loadChain chainList [] files e hmem herr
  refine ⟨⟨e2, hl, ?_⟩, ?_, ?_, ?_, ?_⟩ <;> simp [runMain, hc, hl]

/-- Configuration whose chains list contains a single chain that the loader
rejects. -/
def cfgBadChain : Config := ⟨⟨0, "", some [["bad.pem"]], "addr", "debug"⟩, ""⟩

/-- Witness for C8: the rejected chain aborts the run with exit code 1 and no
serving. -/
theorem chain_load_failure_aborts_witness :
    (runMain cfgBadChain wDup).2 = 1 ∧ Event.serveCall ∉ (runMain cfgBadChain wDup).1 :=
  ⟨(chain_load_failure_aborts cfgBadChain wDup [["bad.pem"]] ["bad.pem"]
      "unexpected chain" rfl (by simp) rfl).2.1,
   (chain_load_failure_aborts cfgBadChain wDup [["bad.pem"]] ["bad.pem"]
      "unexpected chain" rfl (by simp) rfl).2.2.2.2⟩

/-- C7: once serving is reached (chains resolved, TLS loaded, server bound),
the exit status is nonzero iff `grpcSrv.Serve` returned a genuine error;
`grpc.ErrServerStopped`, the benign consequence of a graceful stop already in
progress, is suppressed by `cmd.FilterShutdownErrors`, and a clean return exits
with status 0. -/
theorem serve_error_classification (cfg : Config) (w : Collaborators)
    (chainList : List (List String)) (m : BundleMap)
    (hc : cfg.publisher.chains = some chainList)
    (hl : loadChains w.loadChain chainList [] = Except.ok m)
    (htls : w.tlsLoad = Except.ok ()) (hns : w.newServer = Except.ok ()) :
    ((runMain cfg w).2 ≠ 0 ↔ ∃ msg, w.serveResult = some (ServeError.other msg)) ∧
    (w.serveResult = none → (runMain cfg w).2 = 0) ∧
    (w.serveResult = some ServeError.serverStopped → (runMain cfg w).2 = 0) := by
  have hrun : runMain cfg w = runServer cfg w (defaultedUserAgent cfg) [] m
      [.setBlockProfileRate cfg.publisher.blockProfileRate,
       .statsAndLogging cfg.publisher.debugAddr] := by
    simp [runMain, hc, hl]
  have hcode := runServer_exit_code cfg w (defaultedUserAgent cfg) [] m
    [.setBlockProfileRate cfg.publisher.blockProfileRate,
     .statsAndLogging cfg.publisher.debugAddr] htls hns
  rw [hrun]
  rcases hs : w.serveResult with _ | s
  · rw [hs] at hcode
    refine ⟨?_, fun _ => ?_, fun h2 => ?_⟩
    · simp [hcode, FilterShutdownErrors]
    · simp [hcode, FilterShutdownErrors]
    · cases h2
  · rcases s with _ | msg
    · rw [hs] at hcode
      refine ⟨?_, fun h2 => ?_, fun _ => ?_⟩
      · simp [hcode, FilterShutdownErrors]
      · cases h2
      · simp [hcode, FilterShutdownErrors]
    · rw [hs] at hcode
      refine ⟨?_, fun h2 => ?_, fun h2 => ?_⟩
      · simp only [hcode, FilterShutdownErrors]
        constructor
        · intro _
          exact ⟨msg, rfl⟩
        · intro _
          simp
      · cases h2
      · cases h2

/-- Witness for C7: a clean serve return exits 0. -/
theorem serve_error_classification_witness :
    (runMain cfgChains wDup).2 = 0 :=
  (serve_error_classification cfgChains wDup chainsDup [(7, [ASN1Cert.mk 2])]
    rfl rfl rfl rfl).2.1 rfl

/-- C6: on receipt of the termination signal, the shutdown callback of main.go
lines 126-129 first marks the health service NOT_SERVING and only then begins
the graceful stop (the callback factors as `gracefulStop` after `hsShutdown`,
and in the emitted trace `healthNotServing` strictly precedes
`gracefulStopBegin`); every request in flight at the signal is completed, and
no new request is accepted afterwards. -/
theorem shutdown_health_before_graceful_stop (s : ServerState) (r : GrpcRequest) :
    (shutdownCallback s = gracefulStop (hsShutdown s) ∧
      (hsShutdown s).healthServing = false) ∧
    shutdownCallbackEvents.indexOf ShutdownEvent.healthNotServing <
      shutdownCallbackEvents.indexOf ShutdownEvent.gracefulStopBegin ∧
    (∀ q ∈ s.inFlight, q ∈ (shutdownCallback s).completed) ∧
    (shutdownCallback s).accepting = false ∧
    acceptRequest (shutdownCallback s) r = shutdownCallback s := by
  refine ⟨⟨rfl, rfl⟩, by decide, ?_, rfl, ?_⟩
  · intro q hq
    simp [shutdownCallback, gracefulStop, hsShutdown, hq]
  · simp [acceptRequest, shutdownCallback, gracefulStop, hsShutdown]

/-- Configuration with a PRESENT but EMPTY chains list (a Go non-nil empty
slice, e.g. `"chains": []` in JSON) and a legacy bundle filename set. -/
def cfgEmptyChains : Config := ⟨⟨0, "", some [], "addr", "debug"⟩, "legacy.pem"⟩

/-- Collaborators whose legacy loader would successfully parse the bundle file
`legacy.pem` into one certificate with raw bytes 5. -/
def wLegacy : Collaborators :=
  ⟨fun _ => Except.error "no chain", fun _ => Except.ok [⟨5⟩],
   Except.ok (), Except.ok (), none⟩

/-- C2 counterexample: with a chains list that is present but empty and a valid
legacy bundle file, the check `Chains != nil` on main.go line 93 selects the
chains branch, so the legacy bundle is never loaded: the publisher receives an
empty flat bundle and an empty mapping, not the file's parsed contents. -/
theorem present_empty_chains_skips_legacy :
    Event.loadLegacyBundle "legacy.pem" ∉ (runMain cfgEmptyChains wLegacy).1 ∧
    Event.newPublisher "certificate-transparency-go/1.0" [] [] ∈
      (runMain cfgEmptyChains wLegacy).1 ∧
    Event.newPublisher "certificate-transparency-go/1.0" [ASN1Cert.mk 5] [] ∉
      (runMain cfgEmptyChains wLegacy).1 := by
  refine ⟨by decide, by decide, by decide⟩

/-- C2 amended: the legacy fallback triggers exactly when the chains list is
absent (Go `nil`); then, with a nonempty legacy filename whose bundle parses,
the legacy file is loaded, the flat bundle handed to the publisher equals the
file's parsed certificates element-wise and in order, and the per-issuer
mapping is empty. -/
theorem legacy_fallback_when_chains_absent (cfg : Config) (w : Collaborators)
    (pem : List X509Certificate)
    (hc : cfg.publisher.chains = none)
    (hfile : cfg.intermediateBundleFilename ≠ "")
    (hlb : w.loadCertBundle cfg.intermediateBundleFilename = Except.ok pem) :
    Event.loadLegacyBundle cfg.intermediateBundleFilename ∈ (runMain cfg w).1 ∧
    (∀ ua b bs, Event.newPublisher ua b bs ∈ (runMain cfg w).1 →
      b = List.map (fun cert => ASN1Cert.mk cert.raw) pem ∧ bs = []) := by
  constructor
  · have hrun : runMain cfg w = runServer cfg w (defaultedUserAgent cfg)
        (List.map (fun cert => ASN1Cert.mk cert.raw) pem) []
        [.setBlockProfileRate cfg.publisher.blockProfileRate,
         .statsAndLogging cfg.publisher.debugAddr,
         .loadLegacyBundle cfg.intermediateBundleFilename] := by
      simp [runMain, hc, hfile, hlb]
    rw [hrun]
    exact runServer_pre_subset _ _ _ _ _ _ _ (by simp)
  · intro ua b bs h
    rcases (runMain_newPublisher_inv cfg w ua b bs h).2 with
      ⟨cl, hcl, _, _⟩ | ⟨_, pem2, hlb2, hb, hbs⟩
    · rw [hc] at hcl
      cases hcl
    · rw [hlb] at hlb2
      injection hlb2 with hpem
      subst hpem
      exact ⟨hb, hbs⟩

/-- Configuration with the chains list absent (Go `nil`) and a legacy bundle
filename set. -/
def cfgLegacyOnly : Config := ⟨⟨0, "", none, "addr", "debug"⟩, "legacy.pem"⟩

/-- Witness for the amended C2: with chains absent, the legacy bundle is
loaded. -/
theorem legacy_fallback_when_chains_absent_witness :
    Event.loadLegacyBundle "legacy.pem" ∈ (runMain cfgLegacyOnly wLegacy).1 :=
  (legacy_fallback_when_chains_absent cfgLegacyOnly wLegacy [⟨5⟩] rfl
    (by decide) rfl).1
